import Mathlib

/-!
Verification of the discord-bedtime bot's core logic.

The development shallowly embeds the program's modules:
  * `Time` and its fixed-pattern formatting/parsing (src/time.rs),
  * the per-user schedule state machine `UserInfo` with its task world
    (src/user_info.rs),
  * the nag-loop protocol (src/user_info.rs),
  * the presence handler (src/handler.rs),
  * persistence load/save (src/state.rs) and the command flow (src/cmd.rs).

Effectful library calls (spawning/aborting tasks, file IO, the chat
transport) are embedded by passing their outcomes explicitly, so every
definition is executable.
-/

set_option maxHeartbeats 1000000

namespace DiscordBedtime

/-- Models a `chrono_tz::Tz` value (src uses the chrono-tz zone enum); the
claims never inspect a zone's internals, so it is an opaque identifier. -/
structure Tz where
  idx : Nat
deriving DecidableEq

/-- Embeds `Time` (src/time.rs): a wrapper around `chrono::NaiveTime`,
which carries hour, minute and second fields (nanoseconds are irrelevant to
the claims; a valid `NaiveTime` has `hour < 24`, `minute < 60`,
`second < 60`). -/
structure Time where
  hour : Nat
  minute : Nat
  second : Nat
deriving DecidableEq

/-- The ASCII digit character for `n < 10`. -/
def digitChar (n : Nat) : Char := Char.ofNat (48 + n)

/-- Zero-padded two-digit decimal rendering, as chrono's padded numeric
format items produce for values below 100. -/
def pad2 (n : Nat) : List Char :=
  if n < 10 then [digitChar 0, digitChar n] else [digitChar (n / 10), digitChar (n % 10)]

/-- The 12-hour clock hour shown by chrono's `%I`: 12 for hour 0, 1..11 for
hours 1..11, 12 for hour 12, 1..11 for hours 13..23. -/
def hour12 (h : Nat) : Nat := (h + 11) % 12 + 1

/-- Embeds `impl fmt::Display for Time` (src/time.rs): formats the inner
time with the fixed chrono pattern `Time::FMT` (the string percent-I
colon percent-M space percent-p), i.e. zero-padded 12-hour hour, a colon,
zero-padded minute, a space, and the uppercase AM/PM marker. -/
def Time.fmt (t : Time) : List Char :=
  pad2 (hour12 t.hour) ++ [':'] ++ pad2 t.minute ++ [' '] ++
    (if t.hour < 12 then ['A', 'M'] else ['P', 'M'])

def isDigitCh (c : Char) : Bool := 48 ≤ c.toNat && c.toNat ≤ 57

def digitVal (c : Char) : Nat := c.toNat - 48

/-- chrono's numeric scanner for a width-2 field (`%I`, `%M`): consumes one
or two decimal digits, greedily. -/
def scanNum2 : List Char → Option (Nat × List Char)
  | [] => none
  | c1 :: rest =>
    if isDigitCh c1 then
      match rest with
      | c2 :: rest2 =>
        if isDigitCh c2 then some (digitVal c1 * 10 + digitVal c2, rest2)
        else some (digitVal c1, rest)
      | [] => some (digitVal c1, [])
    else none

def isSpaceCh (c : Char) : Bool := c.toNat = 32 || c.toNat = 9 || c.toNat = 10 || c.toNat = 13

/-- chrono's handling of a literal space in a parse pattern: skip any run of
whitespace (possibly empty). -/
def skipSpaces : List Char → List Char
  | [] => []
  | c :: rest => if isSpaceCh c then skipSpaces rest else c :: rest

def lowerCh (c : Char) : Char :=
  if 65 ≤ c.toNat && c.toNat ≤ 90 then Char.ofNat (c.toNat + 32) else c

/-- chrono's `%p` scanner: exactly two characters, case-insensitive AM/PM;
returns `true` for PM. -/
def scanAmPm : List Char → Option (Bool × List Char)
  | c1 :: c2 :: rest =>
    if lowerCh c2 = 'm' then
      if lowerCh c1 = 'a' then some (false, rest)
      else if lowerCh c1 = 'p' then some (true, rest)
      else none
    else none
  | _ => none

/-- Embeds `impl FromStr for Time` (src/time.rs): chrono
`NaiveTime::parse_from_str` with the same fixed pattern `Time::FMT`.
The 12-hour field must lie in 1..=12 and the minute below 60; the parsed
hour combines the AM/PM half-day with the hour-mod-12; seconds default
to 0; trailing input is an error. -/
def Time.from_str (s : List Char) : Option Time :=
  match scanNum2 s with
  | none => none
  | some (h12, s1) =>
    match s1 with
    | ':' :: s2 =>
      match scanNum2 s2 with
      | none => none
      | some (mi, s3) =>
        match scanAmPm (skipSpaces s3) with
        | none => none
        | some (pm, s4) =>
          if s4 = [] then
            if 1 ≤ h12 && h12 ≤ 12 && mi < 60 then
              some ⟨(if pm then 12 else 0) + h12 % 12, mi, 0⟩
            else none
          else none
    | _ => none

/-- The world of spawned background tasks, embedding the effect of
`tokio::spawn` and `JoinHandle::abort` (user_info.rs uses the handle only
to spawn in `sched_bedtime` and abort in `update_sched`). `nextId` numbers
fresh tasks; `live` lists the ids of tasks that have been spawned and not
aborted. -/
structure SchedWorld where
  nextId : Nat
  live : List Nat
deriving DecidableEq

/-- `JoinHandle::abort`: the task with this handle stops being live. -/
def SchedWorld.abortTask (w : SchedWorld) (h : Nat) : SchedWorld :=
  { w with live := w.live.erase h }

/-- `tokio::spawn` as performed by `sched_bedtime` (src/user_info.rs): a
fresh task becomes live; its id is the returned `JoinHandle`. -/
def SchedWorld.spawnTask (w : SchedWorld) : Nat × SchedWorld :=
  (w.nextId, { nextId := w.nextId + 1, live := w.live ++ [w.nextId] })

/-- Embeds `UserInfo` (src/user_info.rs): the per-user state. The source
field `on` is called `enabled` here because `on` is a Lean keyword.
`sched` holds the `JoinHandle` (a task id into `SchedWorld`) when present;
`awake` and `allowed_awake` are the two atomic flags. -/
structure UserInfo where
  enabled : Bool
  time_zone : Option Tz
  bedtime : Option Time
  awake : Bool
  allowed_awake : Bool
  sched : Option Nat
deriving DecidableEq

/-- Embeds `impl Default for UserInfo` (src/user_info.rs). -/
def UserInfo.default : UserInfo :=
  { enabled := true, time_zone := none, bedtime := none,
    awake := true, allowed_awake := true, sched := none }

/-- Embeds `UserInfo::update_sched` (src/user_info.rs): if a handle is
present, abort it; then, when `on` is set and both `time_zone` and
`bedtime` are present, spawn a new schedule task (`sched_bedtime`) and
store its handle, otherwise store `None`. -/
def update_sched (u : UserInfo) (w : SchedWorld) : UserInfo × SchedWorld :=
  let w1 := match u.sched with
    | some h => w.abortTask h
    | none => w
  match u.time_zone, u.bedtime, u.enabled with
  | some _, some _, true =>
    let p := w1.spawnTask
    ({ u with sched := some p.1 }, p.2)
  | _, _, _ => ({ u with sched := none }, w1)

/-- Embeds `UserInfo::set_time_zone` (src/user_info.rs). -/
def UserInfo.set_time_zone (u : UserInfo) (w : SchedWorld) (tz : Tz) :
    UserInfo × SchedWorld :=
  update_sched { u with time_zone := some tz } w

/-- Embeds `UserInfo::set_bedtime` (src/user_info.rs). -/
def UserInfo.set_bedtime (u : UserInfo) (w : SchedWorld) (t : Time) :
    UserInfo × SchedWorld :=
  update_sched { u with bedtime := some t } w

/-- Embeds `UserInfo::on` (src/user_info.rs); named `turn_on` because the
struct field is already called `on`. -/
def UserInfo.turn_on (u : UserInfo) (w : SchedWorld) : UserInfo × SchedWorld :=
  update_sched { u with enabled := true } w

/-- Embeds `UserInfo::off` (src/user_info.rs). -/
def UserInfo.turn_off (u : UserInfo) (w : SchedWorld) : UserInfo × SchedWorld :=
  update_sched { u with enabled := false } w

/-- Embeds `UserInfo::awake` (src/user_info.rs), the presence handler's
"user is awake" store; named `mark_awake` because the field is `awake`. -/
def UserInfo.mark_awake (u : UserInfo) : UserInfo := { u with awake := true }

/-- Embeds `UserInfo::asleep` (src/user_info.rs). -/
def UserInfo.asleep (u : UserInfo) : UserInfo := { u with awake := false }

/-- Embeds `UserInfo::allow_awake` (src/user_info.rs), the `wake` command's
store. -/
def UserInfo.allow_awake (u : UserInfo) : UserInfo := { u with allowed_awake := true }

/-- A reconfigure or cancel operation on one user's `UserInfo`: the four
mutators of src/user_info.rs that call `update_sched` (disabling via
`off` is the code's cancel). -/
inductive Op where
  | set_time_zone (tz : Tz)
  | set_bedtime (t : Time)
  | turn_on
  | turn_off
deriving DecidableEq

/-- One mutating call: set the configuration field, then `update_sched`,
exactly as each method of `impl UserInfo` does. -/
def Op.step (op : Op) (s : UserInfo × SchedWorld) : UserInfo × SchedWorld :=
  match op with
  | .set_time_zone tz => s.1.set_time_zone s.2 tz
  | .set_bedtime t => s.1.set_bedtime s.2 t
  | .turn_on => s.1.turn_on s.2
  | .turn_off => s.1.turn_off s.2

/-- Apply a sequence of reconfigure/cancel calls. -/
def runOps : List Op → UserInfo × SchedWorld → UserInfo × SchedWorld
  | [], s => s
  | op :: rest, s => runOps rest (op.step s)

/-- The state of a freshly created user (`Default::default`) in a world
with no tasks. -/
def initState : UserInfo × SchedWorld :=
  (UserInfo.default, { nextId := 0, live := [] })

/-- The scheduling invariant: the live background tasks of the world are
exactly the one referenced by the user's `sched` handle, if any. -/
def SchedInv (s : UserInfo × SchedWorld) : Prop :=
  s.2.live = s.1.sched.toList

/-- The transport's responses to one `send_nag_msg` call (src/user_info.rs):
whether `UserId::create_dm_channel` succeeds and whether
`PrivateChannel::say` succeeds. -/
structure Transport where
  dmOk : Bool
  sayOk : Bool
deriving DecidableEq

/-- The observable effects of the nag task: a delivered reminder message,
the two logged transport errors, and a blocking sleep of the given number
of seconds. -/
inductive Eff where
  | sentReminder
  | logSendErr
  | logDmErr
  | sleep (secs : Nat)
deriving DecidableEq

/-- Embeds `send_nag_msg_in_dm` (src/user_info.rs): attempt `chan.say`;
on error, log and return. -/
def send_nag_msg_in_dm (t : Transport) : List Eff :=
  if t.sayOk then [Eff.sentReminder] else [Eff.logSendErr]

/-- Embeds `send_nag_msg` (src/user_info.rs): create the DM channel; on
success send the reminder in it, on error log and return. -/
def send_nag_msg (t : Transport) : List Eff :=
  if t.dmOk then send_nag_msg_in_dm t else [Eff.logDmErr]

/-- Embeds `maybe_nag` (src/user_info.rs): load the awake flag; if set,
send the reminder and sleep five seconds; otherwise do nothing. -/
def maybe_nag (awake : Bool) (t : Transport) : List Eff :=
  if awake then send_nag_msg t ++ [Eff.sleep 5] else []

/-- What one iteration of `nag_loop` observes: the current values of the
two atomic flags (they may have been changed concurrently by the presence
handler or the `wake` command) and the transport's responses. -/
structure Obs where
  allowedAwake : Bool
  awake : Bool
  t : Transport
deriving DecidableEq

/-- One iteration of the `loop` in `nag_loop` (src/user_info.rs): load
`allowed_awake`; if set, break (`none`); otherwise run `maybe_nag` with the
loaded `awake` flag and continue with its effects. -/
def nagIter (o : Obs) : Option (List Eff) :=
  if o.allowedAwake then none else some (maybe_nag o.awake o.t)

/-- The same iteration read off a `UserInfo`: the body only loads the two
flags and never writes any field of the user, so the user state is returned
unchanged. -/
def nagIterState (u : UserInfo) (t : Transport) : Option (UserInfo × List Eff) :=
  if u.allowed_awake then none else some (u, maybe_nag u.awake t)

/-- `nag_loop`'s entry store (src/user_info.rs):
`allowed_awake.store(false)` before the loop begins. -/
def nagLoopEnter (u : UserInfo) : UserInfo := { u with allowed_awake := false }

/-- Run the nag loop against a finite trace of per-iteration observations.
Returns whether the loop broke (terminated normally) within the trace,
together with the accumulated effects. -/
def nag_loop : List Obs → Bool × List Eff
  | [] => (false, [])
  | o :: rest =>
    match nagIter o with
    | none => (true, [])
    | some effs => ((nag_loop rest).1, effs ++ (nag_loop rest).2)

/-- Embeds `serenity::model::user::OnlineStatus`. -/
inductive OnlineStatus where
  | doNotDisturb
  | idle
  | invisible
  | offline
  | online
deriving DecidableEq

/-- Embeds `Handler::presence_update` (src/handler.rs) applied to the
affected user's entry: `Offline` marks the user asleep, every other status
marks them awake. -/
def presence_update (u : UserInfo) (status : OnlineStatus) : UserInfo :=
  match status with
  | .offline => u.asleep
  | _ => u.mark_awake

/-- Embeds the persisted `State` (src/state.rs): the map of user ids to
per-user state, as an association list. -/
structure State where
  users : List (Nat × UserInfo)
deriving DecidableEq

/-- `State::default` (derived `Default`): an empty user map. -/
def State.default : State := ⟨[]⟩

/-- The panic messages of the `expect` calls in src/state.rs. -/
inductive PanicMsg where
  | failedToReadState
  | failedToWriteState
  | failedToCreateStateFile
deriving DecidableEq

/-- Outcome of `State::load`: a loaded state, or a panic (an `expect`
failure aborts instead of returning). -/
inductive LoadResult where
  | loaded (s : State)
  | panicked (msg : PanicMsg)
deriving DecidableEq

/-- Embeds `State::load` (src/state.rs). `openResult` is the environment's
outcome for `File::open` — `.error` for ANY failure to open (a missing
file, permissions, ...) — and, when the open succeeds, the nested value is
`serde_json::from_reader`'s outcome on that file. An open failure falls
back to `Self::default()`; a read/deserialization failure hits
`expect("Failed to read state")` and panics. -/
def State.load (openResult : Except Unit (Except Unit State)) : LoadResult :=
  match openResult with
  | .ok readResult =>
    match readResult with
    | .ok v => .loaded v
    | .error _ => .panicked .failedToReadState
  | .error _ => .loaded State.default

/-- Outcome of `State::save`. -/
inductive SaveResult where
  | saved
  | panicked (msg : PanicMsg)
deriving DecidableEq

/-- Embeds `State::save` (src/state.rs). `createResult` is `File::create`'s
outcome, `writeResult` is `serde_json::to_writer`'s; each is `expect`ed, so
either failure panics. `save` takes `&self`: it never modifies the
in-memory state. -/
def State.save (createResult : Except Unit Unit) (writeResult : Except Unit Unit) :
    SaveResult :=
  match createResult with
  | .error _ => .panicked .failedToCreateStateFile
  | .ok _ =>
    match writeResult with
    | .error _ => .panicked .failedToWriteState
    | .ok _ => .saved

/-- `state.users.entry(id).or_default()`: the user's entry, or a default
one. -/
def State.getUser (s : State) (id : Nat) : UserInfo :=
  match s.users.lookup id with
  | some u => u
  | none => UserInfo.default

/-- Store a user's entry back into the map. -/
def State.setUser (s : State) (id : Nat) (u : UserInfo) : State :=
  ⟨(id, u) :: s.users.filter (fun p => p.1 != id)⟩

/-- Embeds the body of the `time_zone` command (src/cmd.rs): look up or
create the author's entry, run `set_time_zone` on it (which reconfigures
the schedule), and only then call `State::save`. The updated in-memory
state is returned alongside the save outcome. -/
def time_zone_cmd (s : State) (w : SchedWorld) (author : Nat) (tz : Tz)
    (createResult writeResult : Except Unit Unit) :
    (State × SchedWorld) × SaveResult :=
  let p := (s.getUser author).set_time_zone w tz
  let s1 := s.setUser author p.1
  ((s1, p.2), State.save createResult writeResult)

/-- The daily offset `sched_bedtime` (src/user_info.rs) configures on the
scheduler: `bedtime.0.hour()` hours plus `bedtime.0.minute()` minutes past
the start of the local day (seconds are dropped), in minutes. -/
def bedtimeOffsetMinutes (t : Time) : Nat := t.hour * 60 + t.minute

/-- Modelled from the spec: the Trigger Calculator's
`nextFireInstant(timeZone, bedtime, now)`. The actual computation happens
inside the external clokwerk scheduling library (not part of this
repository's sources); `sched_bedtime` only configures it, via
`AsyncScheduler::with_tz` and the daily offset `bedtimeOffsetMinutes`.
Per the spec it "returns the next future instant (strictly after `now`) at
which the local wall clock in `timeZone` equals `bedtime`; if `now`'s local
time is already past `bedtime` for the current local date, returns the
occurrence on the next calendar day; otherwise returns today's occurrence."
Instants are minutes on the configured zone's local wall-clock timeline
(1440 minutes per local day; `now / 1440` is the local calendar day and
`now % 1440` the local time of day), so DST is not modelled and the
spec's 24-hour bound holds exactly. -/
def nextFireInstant (bedtime now : Nat) : Nat :=
  if now % 1440 < bedtime then now - now % 1440 + bedtime
  else now - now % 1440 + 1440 + bedtime

/-- A concrete user in the middle of a nag episode (`allowed_awake` was
stored false on entry), for evaluating the nag-iteration theorems. -/
def nagFailUser : UserInfo := { UserInfo.default with allowed_awake := false }

/-- A transport whose DM-channel creation fails. -/
def nagFailTransport : Transport := ⟨false, false⟩

/- ======================  Theorems  ====================== -/

theorem schedInv_init : SchedInv initState := rfl

theorem update_sched_inv (u : UserInfo) (w : SchedWorld) (h : SchedInv (u, w)) :
    SchedInv (update_sched u w) := by
  cases u with
  | mk enabled tz bt aw alw sc =>
    cases sc <;> cases tz <;> cases bt <;> cases enabled <;>
      simp_all [SchedInv, update_sched, SchedWorld.abortTask, SchedWorld.spawnTask,
        Option.toList]

theorem step_inv (op : Op) (s : UserInfo × SchedWorld) (h : SchedInv s) :
    SchedInv (op.step s) := by
  cases op <;> exact update_sched_inv _ _ h

theorem runOps_inv (ops : List Op) (s : UserInfo × SchedWorld) (h : SchedInv s) :
    SchedInv (runOps ops s) := by
  induction ops generalizing s with
  | nil => exact h
  | cons op rest ih => exact ih (op.step s) (step_inv op s h)

theorem runOps_append (a b : List Op) (s : UserInfo × SchedWorld) :
    runOps (a ++ b) s = runOps b (runOps a s) := by
  induction a generalizing s with
  | nil => rfl
  | cons op rest ih => exact ih (op.step s)

theorem update_sched_post (u : UserInfo) (w : SchedWorld) :
    (update_sched u w).1.enabled = u.enabled ∧
    (update_sched u w).1.time_zone = u.time_zone ∧
    (update_sched u w).1.bedtime = u.bedtime ∧
    (update_sched u w).1.sched.isSome
      = (u.enabled && u.time_zone.isSome && u.bedtime.isSome) := by
  cases u with
  | mk enabled tz bt aw alw sc =>
    cases tz <;> cases bt <;> cases enabled <;>
      simp [update_sched, SchedWorld.abortTask, SchedWorld.spawnTask]

theorem runOps_arm (u : UserInfo) (w : SchedWorld) (hinv : SchedInv (u, w))
    (tz : Tz) (t : Time) :
    (runOps [Op.turn_on, Op.set_time_zone tz, Op.set_bedtime t, Op.set_bedtime t]
      (u, w)).2.live.length = 1 := by
  cases u with
  | mk enabled tz0 bt0 aw alw sc =>
    cases sc <;> cases tz0 <;> cases bt0 <;>
      simp_all [SchedInv, runOps, Op.step, UserInfo.turn_on, UserInfo.set_time_zone,
        UserInfo.set_bedtime, update_sched, SchedWorld.abortTask, SchedWorld.spawnTask,
        Option.toList]

/-- Claim C1: for every sequence of reconfigure (`set_time_zone`,
`set_bedtime`, `on`, `off`) operations on one user's `UserInfo`, at most
one live background task exists at any time — `update_sched` always aborts
the present handle before possibly arming a new one — and in particular a
run ending in two reconfigures with the identical eligible configuration
leaves exactly one live task, not two. -/
theorem at_most_one_live_task (ops : List Op) (tz : Tz) (t : Time) :
    (runOps ops initState).2.live.length ≤ 1 ∧
    (runOps (ops ++ [Op.turn_on, Op.set_time_zone tz, Op.set_bedtime t, Op.set_bedtime t])
      initState).2.live.length = 1 := by
  constructor
  · have h : SchedInv (runOps ops initState) := runOps_inv ops initState schedInv_init
    rw [SchedInv] at h
    rw [h]
    cases (runOps ops initState).1.sched <;> simp [Option.toList]
  · rw [runOps_append]
    exact runOps_arm (runOps ops initState).1 (runOps ops initState).2
      (runOps_inv ops initState schedInv_init) tz t

/-- Claim C5: after every mutating operation completes, the user's task
handle is present exactly when the enabled flag is true and both the time
zone and the bedtime are present; in particular disabling (`off`) always
leaves no handle and no live task. -/
theorem sched_present_iff_eligible (ops : List Op) (op : Op) :
    ((runOps (ops ++ [op]) initState).1.sched.isSome
      = ((runOps (ops ++ [op]) initState).1.enabled
          && (runOps (ops ++ [op]) initState).1.time_zone.isSome
          && (runOps (ops ++ [op]) initState).1.bedtime.isSome)) ∧
    (runOps (ops ++ [Op.turn_off]) initState).1.sched = none ∧
    (runOps (ops ++ [Op.turn_off]) initState).2.live = [] := by
  have key : ∀ (u : UserInfo) (w : SchedWorld),
      (update_sched u w).1.sched.isSome
        = ((update_sched u w).1.enabled && (update_sched u w).1.time_zone.isSome
            && (update_sched u w).1.bedtime.isSome) := by
    intro u w
    obtain ⟨e, z, b, i⟩ := update_sched_post u w
    rw [e, z, b, i]
  have off_none : ∀ (u : UserInfo) (w : SchedWorld),
      (update_sched { u with enabled := false } w).1.sched = none := by
    intro u w
    cases u with
    | mk e tz0 bt0 aw alw sc =>
      cases tz0 <;> cases bt0 <;>
        simp [update_sched, SchedWorld.abortTask, SchedWorld.spawnTask]
  have hoff : (runOps (ops ++ [Op.turn_off]) initState).1.sched = none := by
    rw [runOps_append]
    exact off_none (runOps ops initState).1 (runOps ops initState).2
  refine ⟨?_, hoff, ?_⟩
  · rw [runOps_append]
    cases op <;> exact key _ _
  · have h : SchedInv (runOps (ops ++ [Op.turn_off]) initState) :=
      runOps_inv _ initState schedInv_init
    rw [SchedInv] at h
    rw [h, hoff]
    rfl

/-- Claim C2: for every valid bedtime and current instant, the armed
schedule's next fire instant (modelled from the spec, see
`nextFireInstant`) is strictly after `now`, at most 24 hours (1440 minutes)
later, its local wall-clock time equals the configured bedtime offset, and
it falls on the current local day when `now`'s time of day is before the
bedtime and on the next calendar day otherwise. -/
theorem nextFireInstant_correct (t : Time) (now : Nat)
    (hh : t.hour < 24) (hm : t.minute < 60) :
    now < nextFireInstant (bedtimeOffsetMinutes t) now ∧
    nextFireInstant (bedtimeOffsetMinutes t) now - now ≤ 1440 ∧
    nextFireInstant (bedtimeOffsetMinutes t) now % 1440 = bedtimeOffsetMinutes t ∧
    (now % 1440 < bedtimeOffsetMinutes t →
      nextFireInstant (bedtimeOffsetMinutes t) now / 1440 = now / 1440) ∧
    (bedtimeOffsetMinutes t ≤ now % 1440 →
      nextFireInstant (bedtimeOffsetMinutes t) now / 1440 = now / 1440 + 1) := by
  unfold nextFireInstant bedtimeOffsetMinutes
  split_ifs with hc <;> refine ⟨?_, ?_, ?_, ?_, ?_⟩ <;> omega

/-- Evaluation of `nextFireInstant_correct` at bedtime 22:30 and
`now` 100 minutes into the first day. -/
theorem nextFireInstant_correct_witness :
    100 < nextFireInstant (bedtimeOffsetMinutes ⟨22, 30, 0⟩) 100 ∧
    nextFireInstant (bedtimeOffsetMinutes ⟨22, 30, 0⟩) 100 - 100 ≤ 1440 ∧
    nextFireInstant (bedtimeOffsetMinutes ⟨22, 30, 0⟩) 100 % 1440
      = bedtimeOffsetMinutes ⟨22, 30, 0⟩ ∧
    (100 % 1440 < bedtimeOffsetMinutes ⟨22, 30, 0⟩ →
      nextFireInstant (bedtimeOffsetMinutes ⟨22, 30, 0⟩) 100 / 1440 = 100 / 1440) ∧
    (bedtimeOffsetMinutes ⟨22, 30, 0⟩ ≤ 100 % 1440 →
      nextFireInstant (bedtimeOffsetMinutes ⟨22, 30, 0⟩) 100 / 1440 = 100 / 1440 + 1) :=
  nextFireInstant_correct ⟨22, 30, 0⟩ 100 (by decide) (by decide)

/-- Claim C3: the nag loop first stores the wake-acknowledged flag
(`allowed_awake`) false on entry, and terminates normally exactly when an
iteration observes it true — the observed `awake` values and transport
outcomes (in particular notification failures) never end the episode. -/
theorem nag_loop_exit_iff_wake_ack (u : UserInfo) (obs : List Obs) :
    (nagLoopEnter u).allowed_awake = false ∧
    (nag_loop obs).1 = obs.any (fun o => o.allowedAwake) := by
  refine ⟨rfl, ?_⟩
  induction obs with
  | nil => rfl
  | cons o rest ih =>
    cases h : o.allowedAwake <;> simp [nag_loop, nagIter, h, ih]

/-- Claim C4: in a nag-loop iteration with the wake-acknowledged flag
false, if the awake flag is true (and the transport succeeds) exactly one
reminder is sent followed by a 5-second suspension; if the awake flag is
false the iteration performs nothing at all — no suspension — and
re-checks immediately. -/
theorem nag_iter_cooldown (o : Obs) (h : o.allowedAwake = false) :
    (o.awake = true → o.t.dmOk = true → o.t.sayOk = true →
      nagIter o = some [Eff.sentReminder, Eff.sleep 5]) ∧
    (o.awake = false → nagIter o = some []) := by
  constructor
  · intro ha hd hs
    simp [nagIter, h, maybe_nag, ha, send_nag_msg, hd, send_nag_msg_in_dm, hs]
  · intro ha
    simp [nagIter, h, maybe_nag, ha]

/-- Evaluation of `nag_iter_cooldown` on the two iteration shapes. -/
theorem nag_iter_cooldown_witness :
    nagIter ⟨false, true, ⟨true, true⟩⟩ = some [Eff.sentReminder, Eff.sleep 5] ∧
    nagIter ⟨false, false, ⟨true, true⟩⟩ = some [] :=
  ⟨(nag_iter_cooldown ⟨false, true, ⟨true, true⟩⟩ rfl).1 rfl rfl rfl,
   (nag_iter_cooldown ⟨false, false, ⟨true, true⟩⟩ rfl).2 rfl⟩

/-- Claim C7: when DM-channel creation or the reminder send fails during a
nag episode, the iteration still continues (no break) with the user's
flags and schedule unchanged, and the failure is logged. -/
theorem nag_send_failure_continues (u : UserInfo) (t : Transport)
    (h : u.allowed_awake = false) (hfail : t.dmOk = false ∨ t.sayOk = false) :
    nagIterState u t = some (u, maybe_nag u.awake t) ∧
    (u.awake = true →
      Eff.logDmErr ∈ maybe_nag u.awake t ∨ Eff.logSendErr ∈ maybe_nag u.awake t) := by
  constructor
  · simp [nagIterState, h]
  · intro ha
    cases hd : t.dmOk
    · left
      simp [maybe_nag, ha, send_nag_msg, hd]
    · right
      have hs : t.sayOk = false := by
        rcases hfail with hf | hf
        · rw [hd] at hf
          exact absurd hf (by simp)
        · exact hf
      simp [maybe_nag, ha, send_nag_msg, hd, send_nag_msg_in_dm, hs]

/-- Evaluation of `nag_send_failure_continues` on a failing transport. -/
theorem nag_send_failure_continues_witness :
    nagIterState nagFailUser nagFailTransport
      = some (nagFailUser, maybe_nag nagFailUser.awake nagFailTransport) ∧
    (nagFailUser.awake = true →
      Eff.logDmErr ∈ maybe_nag nagFailUser.awake nagFailTransport ∨
      Eff.logSendErr ∈ maybe_nag nagFailUser.awake nagFailTransport) :=
  nag_send_failure_continues nagFailUser nagFailTransport rfl (Or.inl rfl)

/-- Claim C6: a presence update sets the awake flag to false exactly when
the new status is Offline (true for every other status) and leaves every
other part of the user's state — enabled flag, time zone, bedtime,
wake-acknowledged flag, task handle — unchanged. -/
theorem presence_update_sets_awake_only (u : UserInfo) (status : OnlineStatus) :
    ((presence_update u status).awake = false ↔ status = OnlineStatus.offline) ∧
    (presence_update u status).enabled = u.enabled ∧
    (presence_update u status).time_zone = u.time_zone ∧
    (presence_update u status).bedtime = u.bedtime ∧
    (presence_update u status).allowed_awake = u.allowed_awake ∧
    (presence_update u status).sched = u.sched := by
  cases status <;> simp [presence_update, UserInfo.mark_awake, UserInfo.asleep]

/-- Claim C8 (amended): `State::load` falls back to the default
configuration (empty user map) on every failure to open the store — not
only a missing file — but a failure to read/deserialize a successfully
opened store panics instead of falling back. -/
theorem state_load_open_failure_defaults (e : Unit) (v : State) :
    State.load (Except.error e) = LoadResult.loaded State.default ∧
    State.load (Except.ok (Except.ok v)) = LoadResult.loaded v ∧
    State.load (Except.ok (Except.error e))
      = LoadResult.panicked PanicMsg.failedToReadState :=
  ⟨rfl, rfl, rfl⟩

/-- Claim C8 counterexample: a store that opens but whose contents fail to
deserialize makes `State::load` panic (`expect("Failed to read state")`)
rather than fall back to the default configuration. -/
theorem state_load_read_failure_panics :
    State.load (Except.ok (Except.error ()))
      = LoadResult.panicked PanicMsg.failedToReadState ∧
    State.load (Except.ok (Except.error ())) ≠ LoadResult.loaded State.default :=
  ⟨rfl, by decide⟩

/-- Claim C9 (amended): the in-memory mutation performed by a command is
independent of the persistence outcome — `State::save` takes the state by
shared reference and cannot roll it back, and the command stores the new
time zone before saving — but a failed write makes `State::save` panic
(`expect`) rather than log a best-effort warning. -/
theorem save_failure_no_rollback (s : State) (w : SchedWorld) (id : Nat) (tz : Tz)
    (c wr : Except Unit Unit) :
    (time_zone_cmd s w id tz c wr).1
      = (time_zone_cmd s w id tz (Except.ok ()) (Except.ok ())).1 ∧
    ((time_zone_cmd s w id tz c wr).1.1.getUser id).time_zone = some tz ∧
    State.save (Except.ok ()) (Except.error ())
      = SaveResult.panicked PanicMsg.failedToWriteState := by
  refine ⟨rfl, ?_, rfl⟩
  have h := (update_sched_post { s.getUser id with time_zone := some tz } w).2.1
  simp [time_zone_cmd, State.setUser, State.getUser, UserInfo.set_time_zone, List.lookup]
  simp at h
  exact h

/-- Claim C9 counterexample: a write failure after a mutation does not end
as a logged warning — `State::save` panics, via
`expect("Failed to write state")` (and `expect("Failed to create state
file")` for a create failure). -/
theorem state_save_write_failure_panics :
    State.save (Except.ok ()) (Except.error ())
      = SaveResult.panicked PanicMsg.failedToWriteState ∧
    State.save (Except.error ()) (Except.ok ())
      = SaveResult.panicked PanicMsg.failedToCreateStateFile ∧
    State.save (Except.ok ()) (Except.error ()) ≠ SaveResult.saved :=
  ⟨rfl, rfl, by decide⟩

/-- Claim C10: the bedtime `Time` type formats and parses with the fixed
12-hour pattern (hour, minute, AM/PM): for every valid time whose seconds
component is zero, parsing the displayed string returns the original
value. -/
theorem time_display_parse_roundtrip :
    ∀ h : Nat, h < 24 → ∀ m : Nat, m < 60 →
      Time.from_str (Time.fmt ⟨h, m, 0⟩) = some ⟨h, m, 0⟩ := by decide

/-- Evaluation of `time_display_parse_roundtrip` at 9:30 PM. -/
theorem time_display_parse_roundtrip_witness :
    Time.from_str (Time.fmt ⟨21, 30, 0⟩) = some ⟨21, 30, 0⟩ :=
  time_display_parse_roundtrip 21 (by decide) 30 (by decide)

end DiscordBedtime
